import Mathlib

/-!
Shallow embedding of `nominatim/api/types.py` (Nominatim API boundary types):
`PlaceID`, `OsmID` (with its construction-time validation), `Point` with its
GeoJSON emitter and EWKB decoder, the `GeometryFormat` flag enum and the
`LookupDetails` configuration record.

Python floats are IEEE-754 binary64 values; we embed them as `PyFloat`,
an exact value type (finite values as rationals, plus infinities and NaN;
all NaN payloads are collapsed, and the sign of zero is dropped, which is
exactly the quotient taken by Python's `==` on floats except that here
`nan = nan`).  Byte strings are lists of naturals below 256, and a raised
`ValueError` is an `Except.error` carrying the message string.
-/

/-- An IEEE-754 binary64 value as seen by Python: a finite value (exact, as a
rational), a signed infinity, or NaN. -/
inductive PyFloat where
  | finite (val : ℚ)
  | inf (neg : Bool)
  | nan
deriving DecidableEq, Repr

/-- Interpret a 64-bit pattern (a natural below `2 ^ 64`) as an IEEE-754
binary64 value: sign bit 63, 11 exponent bits, 52 fraction bits; exponent
field 2047 encodes infinities and NaNs, exponent field 0 the subnormals.
The value of a finite double with significand `m` and (adjusted) exponent
field `e` is `± m * 2 ^ (e - 1075)`, built here with `mkRat` and `Nat.pow`
so that it evaluates by kernel reduction. -/
def bits64ToFloat (b : ℕ) : PyFloat :=
  let sign := b / Nat.pow 2 63 % 2
  let expF := b / Nat.pow 2 52 % 2048
  let frac := b % Nat.pow 2 52
  if expF = 2047 then
    if frac = 0 then .inf (sign = 1) else .nan
  else
    let m : ℕ := if expF = 0 then frac else Nat.pow 2 52 + frac
    let e : ℕ := if expF = 0 then 1 else expF
    let num : ℤ := if sign = 1 then -(m : ℤ) else (m : ℤ)
    if e ≤ 1075 then .finite (mkRat num (Nat.pow 2 (1075 - e)))
    else .finite (mkRat (num * Int.ofNat (Nat.pow 2 (e - 1075))) 1)

/-- Big-endian value of a byte list: `struct.unpack` with pattern `>`. -/
def beNat (bs : List ℕ) : ℕ :=
  bs.foldl (fun a b => a * 256 + b) 0

/-- Value of a byte list under the chosen endianness (`little = true` reads
the bytes reversed, as `struct.unpack` with pattern `<` does). -/
def readWord (little : Bool) (bs : List ℕ) : ℕ :=
  beNat (if little then bs.reverse else bs)

/-- Reinterpret a natural below `2 ^ 32` as a signed 32-bit integer, as
`struct.unpack` format character `i` does. -/
def toSigned32 (n : ℕ) : ℤ :=
  if n < 2147483648 then (n : ℤ) else (n : ℤ) - 4294967296

instance {e a : Type} [DecidableEq e] [DecidableEq a] : DecidableEq (Except e a) := fun
  | .error x, .error y =>
    if h : x = y then .isTrue (by rw [h]) else .isFalse (by simp [h])
  | .error _, .ok _ => .isFalse (fun h => Except.noConfusion h)
  | .ok _, .error _ => .isFalse (fun h => Except.noConfusion h)
  | .ok x, .ok y =>
    if h : x = y then .isTrue (by rw [h]) else .isFalse (by simp [h])

/-- `class Point(NamedTuple)`: a geographic point in WGS84 projection. -/
structure Point where
  x : PyFloat
  y : PyFloat
deriving DecidableEq, Repr

/-- `Point.lat`: return the latitude of the point (`self.y`). -/
def Point.lat (p : Point) : PyFloat := p.y

/-- `Point.lon`: return the longitude of the point (`self.x`). -/
def Point.lon (p : Point) : PyFloat := p.x

/-- Textual form of a Python float as used by `str.format`/f-strings.
`nan` and the infinities render as `nan`, `inf`, `-inf`.  Finite
integer-valued doubles of magnitude below `10 ^ 16` render as the integer
followed by `.0`, which is Python's exact behaviour on that range (and the
only finite values whose textual form this development evaluates).  Other
finite values are rendered with 17 fraction digits; Python would use the
shortest round-tripping decimal instead, which we do not model. -/
def pyFloatRepr : PyFloat → String
  | .nan => "nan"
  | .inf neg => if neg then "-inf" else "inf"
  | .finite q =>
    if q.den = 1 ∧ q.num.natAbs < Nat.pow 10 16 then
      toString q.num ++ ".0"
    else
      let sign := if q < 0 then "-" else ""
      let a : ℚ := |q|
      let ip : ℕ := a.floor.toNat
      let fr : ℕ := ((a - a.floor) * ((Nat.pow 10 17 : ℕ) : ℚ)).floor.toNat
      sign ++ toString ip ++ "." ++ toString fr

/-- `Point.to_geojson`: return the point in GeoJSON format, by interpolating
the two coordinates into a fixed template. -/
def Point.to_geojson (p : Point) : String :=
  "\x7b\"type\": \"Point\",\"coordinates\": [" ++ pyFloatRepr p.x ++ ", "
    ++ pyFloatRepr p.y ++ "]\x7d"

/-- Decode `unpack('>iidd', rest)` resp. `unpack('<iidd', rest)` on the 24
bytes after the endianness marker, then run the two validation checks of
`Point.from_wkb` and build the point. -/
def unpackPoint (little : Bool) (rest : List ℕ) : Except String Point :=
  let gtype := toSigned32 (readWord little (rest.take 4))
  let srid := toSigned32 (readWord little ((rest.drop 4).take 4))
  let x := bits64ToFloat (readWord little ((rest.drop 8).take 8))
  let y := bits64ToFloat (readWord little ((rest.drop 16).take 8))
  if gtype ≠ 0x20000001 then .error "WKB must be a point geometry."
  else if srid ≠ 4326 then .error "Only WGS84 WKB supported."
  else .ok ⟨x, y⟩

/-- `Point.from_wkb`: create a point from EWKB as returned from the
database.  A raised `ValueError` is modelled as `Except.error` with the
same message. -/
def Point.from_wkb (wkb : List ℕ) : Except String Point :=
  if wkb.length ≠ 25 then .error "Point wkb has unexpected length"
  else if wkb.headI = 0 then unpackPoint false (wkb.drop 1)
  else if wkb.headI = 1 then unpackPoint true (wkb.drop 1)
  else .error "WKB has unknown endian value."

/-- `class PlaceID`: reference an object by Nominatim's internal ID. -/
structure PlaceID where
  place_id : ℤ
deriving DecidableEq, Repr

/-- `class OsmID`: reference by the OSM ID and potentially the basic
category. -/
structure OsmID where
  osm_type : String
  osm_id : ℤ
  osm_class : Option String
deriving DecidableEq, Repr

/-- Constructing an `OsmID` runs `__post_init__`, which raises `ValueError`
unless `osm_type` is one of `N`, `W`, `R`; we model construction as a
function returning `Except`. -/
def OsmID.make (osm_type : String) (osm_id : ℤ) (osm_class : Option String) :
    Except String OsmID :=
  if osm_type = "N" ∨ osm_type = "W" ∨ osm_type = "R" then
    .ok ⟨osm_type, osm_id, osm_class⟩
  else
    .error ("Illegal OSM type \x27" ++ osm_type ++ "\x27. Must be one of N, W, R.")

/-- `PlaceRef = Union[PlaceID, OsmID]`. -/
inductive PlaceRef where
  | byPlaceID (p : PlaceID)
  | byOsmID (o : OsmID)
deriving DecidableEq, Repr

namespace GeometryFormat

/-! `class GeometryFormat(enum.Flag)`: members carry power-of-two values
assigned by `enum.auto()`, and combine with bitwise or. -/

/-- `GeometryFormat.NONE` (value 0). -/
def NONE : ℕ := 0

/-- `GeometryFormat.GEOJSON` (value 1). -/
def GEOJSON : ℕ := 1

/-- `GeometryFormat.KML` (value 2). -/
def KML : ℕ := 2

/-- `GeometryFormat.SVG` (value 4). -/
def SVG : ℕ := 4

/-- `GeometryFormat.TEXT` (value 8). -/
def TEXT : ℕ := 8

/-- Flag combination `a | b` of `enum.Flag`: bitwise or of the values. -/
def union (a b : ℕ) : ℕ := a ||| b

/-- Membership test `f in a` of `enum.Flag`: `a & f == f` on the values. -/
def hasFlag (a f : ℕ) : Bool := a &&& f = f

end GeometryFormat

/-- Python dataclasses are generated with `frozen=False` unless requested
otherwise, so attribute assignment on an existing instance is permitted and
does not re-run `__post_init__`.  `OsmID` in the source is such a plain
dataclass; this models the assignment `o.osm_type = t`. -/
def OsmID.set_osm_type (o : OsmID) (t : String) : OsmID :=
  { o with osm_type := t }

/-- The 25-byte big-endian EWKB encoding of the point `(1.0, -3.0)` with
geometry-type code `0x20000001` and SRID 4326: marker byte 0, then
`0x20000001`, `4326`, and the IEEE-754 bit patterns `0x3FF0000000000000`
(for `1.0`) and `0xC008000000000000` (for `-3.0`), each most significant
byte first. -/
def wkbBE : List ℕ :=
  [0x00, 0x20, 0x00, 0x00, 0x01, 0x00, 0x00, 0x10, 0xE6,
   0x3F, 0xF0, 0x00, 0x00, 0x00, 0x00, 0x00, 0x00,
   0xC0, 0x08, 0x00, 0x00, 0x00, 0x00, 0x00, 0x00]

/-- The same logical content as `wkbBE` encoded little-endian: marker byte
1, then the same three fields with their bytes reversed. -/
def wkbLE : List ℕ :=
  [0x01, 0x01, 0x00, 0x00, 0x20, 0xE6, 0x10, 0x00, 0x00,
   0x00, 0x00, 0x00, 0x00, 0x00, 0x00, 0xF0, 0x3F,
   0x00, 0x00, 0x00, 0x00, 0x00, 0x00, 0x08, 0xC0]

/-- `class LookupDetails`: collection of parameters that define the amount
of details returned with a search result; every field carries the default
from the source. -/
structure LookupDetails where
  geometry_output : ℕ := GeometryFormat.NONE
  address_details : Bool := false
  linked_places : Bool := false
  parented_places : Bool := false
  keywords : Bool := false
deriving DecidableEq, Repr

/-!
A recognizer for the JSON text grammar of RFC 8259, used to state that a
string is (or is not) valid JSON.  It consumes a value from a character
list and returns the unconsumed suffix, with a fuel argument bounding the
recursion depth; `isValidJson` supplies fuel ample for any input of the
given length.
-/

/-- JSON insignificant whitespace: space, tab, line feed, carriage return. -/
def jsonWs (c : Char) : Bool :=
  c = ' ' || c = '\t' || c = '\n' || c = '\r'

/-- Drop leading JSON whitespace. -/
def skipWs : List Char → List Char
  | c :: cs => if jsonWs c then skipWs cs else c :: cs
  | [] => []

/-- JSON hexadecimal digit (for `\u` escapes). -/
def jsonHexDigit (c : Char) : Bool :=
  c.isDigit || ('a' ≤ c && c ≤ 'f') || ('A' ≤ c && c ≤ 'F')

/-- Consume the remainder of a JSON string after the opening quote,
accepting the eight single-character escapes and `\uXXXX`, and rejecting
unescaped control characters. -/
def jsonStringRest : List Char → Option (List Char)
  | [] => none
  | c :: cs =>
    if c = '"' then some cs
    else if c = '\\' then
      match cs with
      | e :: cs2 =>
        if e = '"' || e = '\\' || e = '/' || e = 'b' || e = 'f' || e = 'n'
            || e = 'r' || e = 't' then
          jsonStringRest cs2
        else if e = 'u' then
          match cs2 with
          | h1 :: h2 :: h3 :: h4 :: cs3 =>
            if jsonHexDigit h1 && jsonHexDigit h2 && jsonHexDigit h3
                && jsonHexDigit h4 then
              jsonStringRest cs3
            else none
          | _ => none
        else none
      | [] => none
    else if c.toNat < 32 then none
    else jsonStringRest cs

/-- Consume the integer part of a JSON number: `0`, or a nonzero digit
followed by any digits. -/
def jsonIntPart : List Char → Option (List Char)
  | '0' :: cs => some cs
  | c :: cs => if c.isDigit then some (List.dropWhile Char.isDigit cs) else none
  | [] => none

/-- Consume an optional JSON fraction part: `.` followed by one or more
digits. -/
def jsonFracPart : List Char → Option (List Char)
  | '.' :: cs =>
    (match cs with
     | c :: cs2 => if c.isDigit then some (List.dropWhile Char.isDigit cs2) else none
     | [] => none)
  | cs => some cs

/-- Consume an optional JSON exponent part: `e` or `E`, an optional sign,
and one or more digits. -/
def jsonExpPart : List Char → Option (List Char)
  | c :: cs =>
    if c = 'e' || c = 'E' then
      let cs2 := match cs with
        | '+' :: r => r
        | '-' :: r => r
        | r => r
      match cs2 with
      | d :: r => if d.isDigit then some (List.dropWhile Char.isDigit r) else none
      | [] => none
    else some (c :: cs)
  | [] => some []

/-- Consume a JSON number: optional minus, integer part, optional fraction
and exponent. -/
def jsonNumber (cs : List Char) : Option (List Char) :=
  let cs1 := match cs with
    | '-' :: r => r
    | r => r
  match jsonIntPart cs1 with
  | some cs2 =>
    match jsonFracPart cs2 with
    | some cs3 => jsonExpPart cs3
    | none => none
  | none => none

mutual

/-- Consume one JSON value (object, array, string, number, or one of the
three literal names), preceded by optional whitespace. -/
def jsonValue : ℕ → List Char → Option (List Char)
  | 0, _ => none
  | fuel + 1, cs =>
    match skipWs cs with
    | 't' :: 'r' :: 'u' :: 'e' :: rest => some rest
    | 'f' :: 'a' :: 'l' :: 's' :: 'e' :: rest => some rest
    | 'n' :: 'u' :: 'l' :: 'l' :: rest => some rest
    | '"' :: rest => jsonStringRest rest
    | '\x7b' :: rest => jsonMembers fuel rest true
    | '[' :: rest => jsonItems fuel rest true
    | cs1 => jsonNumber cs1

/-- Consume the elements of a JSON array after `[` (or after a comma, when
`allowEnd` is false: a closing bracket is then not permitted). -/
def jsonItems : ℕ → List Char → Bool → Option (List Char)
  | 0, _, _ => none
  | fuel + 1, cs, allowEnd =>
    match skipWs cs with
    | ']' :: rest => if allowEnd then some rest else none
    | cs1 =>
      match jsonValue fuel cs1 with
      | some cs2 =>
        match skipWs cs2 with
        | ',' :: rest => jsonItems fuel rest false
        | ']' :: rest => some rest
        | _ => none
      | none => none

/-- Consume the members of a JSON object after the opening brace (or after
a comma, when `allowEnd` is false). -/
def jsonMembers : ℕ → List Char → Bool → Option (List Char)
  | 0, _, _ => none
  | fuel + 1, cs, allowEnd =>
    match skipWs cs with
    | '\x7d' :: rest => if allowEnd then some rest else none
    | '"' :: rest =>
      match jsonStringRest rest with
      | some cs2 =>
        match skipWs cs2 with
        | ':' :: cs3 =>
          match jsonValue fuel cs3 with
          | some cs4 =>
            match skipWs cs4 with
            | ',' :: rest2 => jsonMembers fuel rest2 false
            | '\x7d' :: rest2 => some rest2
            | _ => none
          | none => none
        | _ => none
      | none => none
    | _ => none

end

/-- A string is a valid JSON text when one value followed only by
whitespace consumes it entirely. -/
def isValidJson (s : String) : Bool :=
  match jsonValue (s.length + 2) s.toList with
  | some rest => skipWs rest = []
  | none => false

/-! ## Theorems -/

/-- On a well-formed 24-byte payload whose decoded geometry-type code and
SRID pass the two validation checks, `Point.from_wkb` succeeds with the two
decoded doubles. -/
theorem from_wkb_ok (little : Bool) (rest : List ℕ)
    (hlen : rest.length = 24)
    (hg : toSigned32 (readWord little (rest.take 4)) = 0x20000001)
    (hs : toSigned32 (readWord little ((rest.drop 4).take 4)) = 4326) :
    Point.from_wkb ((if little then 1 else 0) :: rest) =
      .ok { x := bits64ToFloat (readWord little ((rest.drop 8).take 8)),
            y := bits64ToFloat (readWord little ((rest.drop 16).take 8)) } := by
  cases little <;> simp [Point.from_wkb, hlen, unpackPoint, hg, hs]

/-- C1: for every 25-byte buffer whose byte 0 is 0 (big-endian) or 1
(little-endian), whose geometry-type code equals `0x20000001` and whose
spatial-reference identifier equals 4326 (both read per the selected
endianness), `Point.from_wkb` succeeds and returns the point whose `x` and
`y` are the two following IEEE-754 doubles decoded per that endianness,
`x` first and `y` second. -/
theorem from_wkb_valid_decodes (little : Bool) (rest : List ℕ)
    (hlen : rest.length = 24)
    (_hbytes : ∀ v ∈ rest, v < 256)
    (hg : toSigned32 (readWord little (rest.take 4)) = 0x20000001)
    (hs : toSigned32 (readWord little ((rest.drop 4).take 4)) = 4326) :
    Point.from_wkb ((if little then 1 else 0) :: rest) =
      .ok { x := bits64ToFloat (readWord little ((rest.drop 8).take 8)),
            y := bits64ToFloat (readWord little ((rest.drop 16).take 8)) } :=
  from_wkb_ok little rest hlen hg hs

set_option maxRecDepth 4000 in
/-- Witness for C1: decoding the concrete big-endian buffer for
`(1.0, -3.0)`. -/
theorem from_wkb_valid_decodes_witness :
    Point.from_wkb wkbBE = .ok { x := .finite 1, y := .finite (-3) } := by
  have h := from_wkb_valid_decodes false
    [0x20, 0x00, 0x00, 0x01, 0x00, 0x00, 0x10, 0xE6,
     0x3F, 0xF0, 0x00, 0x00, 0x00, 0x00, 0x00, 0x00,
     0xC0, 0x08, 0x00, 0x00, 0x00, 0x00, 0x00, 0x00]
    (by decide) (by decide) (by decide) (by decide)
  exact h.trans (by decide)

/-- C2: `Point.from_wkb` fails exactly on the invalid buffers, each for its
own reason — wrong length, unknown endian marker, non-point geometry-type
code, or non-4326 spatial-reference identifier — and succeeds on all
others. -/
theorem from_wkb_error_characterization (wkb : List ℕ) :
    (wkb.length ≠ 25 → Point.from_wkb wkb = .error "Point wkb has unexpected length") ∧
    (∀ b rest, wkb = b :: rest → wkb.length = 25 →
      (¬(b = 0 ∨ b = 1) → Point.from_wkb wkb = .error "WKB has unknown endian value.") ∧
      (∀ little : Bool, b = (if little then 1 else 0) →
        (toSigned32 (readWord little (rest.take 4)) ≠ 0x20000001 →
          Point.from_wkb wkb = .error "WKB must be a point geometry.") ∧
        (toSigned32 (readWord little (rest.take 4)) = 0x20000001 →
         toSigned32 (readWord little ((rest.drop 4).take 4)) ≠ 4326 →
          Point.from_wkb wkb = .error "Only WGS84 WKB supported."))) ∧
    ((∃ p, Point.from_wkb wkb = .ok p) ↔
      (∃ little : Bool, ∃ rest, wkb = (if little then 1 else 0) :: rest ∧
        rest.length = 24 ∧
        toSigned32 (readWord little (rest.take 4)) = 0x20000001 ∧
        toSigned32 (readWord little ((rest.drop 4).take 4)) = 4326)) := by
  refine ⟨?_, ?_, ?_, ?_⟩
  · intro h
    simp [Point.from_wkb, h]
  · rintro b rest rfl hlen
    have hlen24 : rest.length = 24 := by simpa using hlen
    constructor
    · intro hb
      push_neg at hb
      simp [Point.from_wkb, hlen24, hb.1, hb.2]
    · rintro little rfl
      cases little <;>
        exact ⟨fun hg => by simp [Point.from_wkb, hlen24, unpackPoint, hg],
               fun hg hs => by simp [Point.from_wkb, hlen24, unpackPoint, hg, hs]⟩
  · rintro ⟨p, hp⟩
    rcases wkb with _ | ⟨b, rest⟩
    · simp [Point.from_wkb] at hp
    by_cases hlen : rest.length = 24
    case neg =>
      simp [Point.from_wkb, hlen] at hp
    by_cases hb0 : b = 0
    · subst hb0
      by_cases hg : toSigned32 (readWord false (rest.take 4)) = 0x20000001
      · by_cases hs : toSigned32 (readWord false ((rest.drop 4).take 4)) = 4326
        · exact ⟨false, rest, rfl, hlen, hg, hs⟩
        · simp [Point.from_wkb, hlen, unpackPoint, hg, hs] at hp
      · simp [Point.from_wkb, hlen, unpackPoint, hg] at hp
    by_cases hb1 : b = 1
    · subst hb1
      by_cases hg : toSigned32 (readWord true (rest.take 4)) = 0x20000001
      · by_cases hs : toSigned32 (readWord true ((rest.drop 4).take 4)) = 4326
        · exact ⟨true, rest, rfl, hlen, hg, hs⟩
        · simp [Point.from_wkb, hlen, unpackPoint, hg, hs] at hp
      · simp [Point.from_wkb, hlen, unpackPoint, hg] at hp
    · simp [Point.from_wkb, hlen, hb0, hb1] at hp
  · rintro ⟨little, rest, rfl, hlen, hg, hs⟩
    exact ⟨_, from_wkb_ok little rest hlen hg hs⟩

/-- Witness for C2: a buffer of wrong length fails with the length
message. -/
theorem from_wkb_error_characterization_witness :
    Point.from_wkb [0] = .error "Point wkb has unexpected length" :=
  (from_wkb_error_characterization [0]).1 (by decide)

set_option maxRecDepth 4000 in
/-- C3: decoding the big-endian 25-byte encoding of `(1.0, -3.0)` (type
code `0x20000001`, SRID 4326) yields exactly `Point(1.0, -3.0)`, decoding
the little-endian encoding of the same values yields the identical point,
and the two decodings agree. -/
theorem from_wkb_roundtrip_example :
    Point.from_wkb wkbBE = .ok { x := .finite 1, y := .finite (-3) } ∧
    Point.from_wkb wkbLE = .ok { x := .finite 1, y := .finite (-3) } ∧
    Point.from_wkb wkbBE = Point.from_wkb wkbLE := by
  have h1 : Point.from_wkb wkbBE = .ok { x := .finite 1, y := .finite (-3) } := by decide
  have h2 : Point.from_wkb wkbLE = .ok { x := .finite 1, y := .finite (-3) } := by decide
  exact ⟨h1, h2, h1.trans h2.symm⟩

/-- C4: constructing an `OsmID` with element type `s` succeeds exactly when
`s` is one of `N`, `W`, `R`, returning the triple unchanged; any other
string fails at construction time with a `ValueError` whose message names
the illegal value. -/
theorem osmID_make_characterization (s : String) (i : ℤ) (c : Option String) :
    ((∃ o, OsmID.make s i c = .ok o) ↔ (s = "N" ∨ s = "W" ∨ s = "R")) ∧
    (s = "N" ∨ s = "W" ∨ s = "R" → OsmID.make s i c = .ok ⟨s, i, c⟩) ∧
    (¬(s = "N" ∨ s = "W" ∨ s = "R") →
      OsmID.make s i c =
        .error ("Illegal OSM type \x27" ++ s ++ "\x27. Must be one of N, W, R.")) := by
  refine ⟨⟨?_, ?_⟩, ?_, ?_⟩
  · rintro ⟨o, ho⟩
    by_cases h : s = "N" ∨ s = "W" ∨ s = "R"
    · exact h
    · simp [OsmID.make, h] at ho
  · intro h
    exact ⟨⟨s, i, c⟩, by simp [OsmID.make, h]⟩
  · intro h
    simp [OsmID.make, h]
  · intro h
    simp [OsmID.make, h]

/-- Witness for C4: the illegal code `X` is rejected with a message naming
it. -/
theorem osmID_make_characterization_witness :
    OsmID.make "X" 1 none =
      .error ("Illegal OSM type \x27" ++ "X" ++ "\x27. Must be one of N, W, R.") :=
  (osmID_make_characterization "X" 1 none).2.2 (by decide)

/-- C5 counterexample: `OsmID` is a non-frozen dataclass, so after a
validated construction its `osm_type` can be reassigned without re-running
validation, producing a reachable `OsmID` outside `{N, W, R}` — the claim
that an `OsmID`'s element type cannot be changed after construction-time
validation is false. -/
theorem osmID_mutation_counterexample :
    OsmID.make "N" 1 none = .ok ⟨"N", 1, none⟩ ∧
    (OsmID.set_osm_type ⟨"N", 1, none⟩ "X").osm_type = "X" ∧
    ¬((OsmID.set_osm_type ⟨"N", 1, none⟩ "X").osm_type = "N" ∨
      (OsmID.set_osm_type ⟨"N", 1, none⟩ "X").osm_type = "W" ∨
      (OsmID.set_osm_type ⟨"N", 1, none⟩ "X").osm_type = "R") :=
  ⟨by decide, rfl, by decide⟩

/-- C5 (amended): no operation defined by this module mutates a value, and
every `OsmID` that the validating constructor returns satisfies
`osm_type ∈ {N, W, R}`; enforced immutability, however, holds only for
`Point` (a `NamedTuple`), not for the plain dataclasses, whose fields a
caller may reassign. -/
theorem osmID_constructed_satisfies_invariant (s : String) (i : ℤ)
    (c : Option String) (o : OsmID) (h : OsmID.make s i c = .ok o) :
    o.osm_type = "N" ∨ o.osm_type = "W" ∨ o.osm_type = "R" := by
  by_cases hs : s = "N" ∨ s = "W" ∨ s = "R"
  · have ho : o = ⟨s, i, c⟩ := by
      rw [OsmID.make, if_pos hs] at h
      exact (Except.ok.injEq _ _ ▸ h).symm
    subst ho
    simpa using hs
  · simp [OsmID.make, hs] at h

/-- Witness for C5's amended theorem at the concrete input `N`. -/
theorem osmID_constructed_satisfies_invariant_witness :
    (⟨"N", 1, none⟩ : OsmID).osm_type = "N" ∨
    (⟨"N", 1, none⟩ : OsmID).osm_type = "W" ∨
    (⟨"N", 1, none⟩ : OsmID).osm_type = "R" :=
  osmID_constructed_satisfies_invariant "N" 1 none ⟨"N", 1, none⟩ (by decide)

/-- C6: `Point(1.0, -3.0).to_geojson()` is exactly the expected string,
and in general `to_geojson` deterministically interpolates the text of `x`
then `y` as a two-element coordinate array in a fixed template with no CRS
metadata, never failing. -/
theorem to_geojson_spec :
    Point.to_geojson { x := .finite 1, y := .finite (-3) }
      = "\x7b\"type\": \"Point\",\"coordinates\": [1.0, -3.0]\x7d" ∧
    ∀ p : Point, Point.to_geojson p =
      "\x7b\"type\": \"Point\",\"coordinates\": [" ++ pyFloatRepr p.x ++ ", "
        ++ pyFloatRepr p.y ++ "]\x7d" :=
  ⟨by decide, fun _ => rfl⟩

/-- C7: `GeometryFormat` combination is associative and idempotent, `NONE`
is a two-sided identity, and `GEOJSON | KML` contains `GEOJSON` and `KML`
but neither `SVG` nor `TEXT`. -/
theorem geometryFormat_flag_algebra :
    (∀ a b c : ℕ, GeometryFormat.union (GeometryFormat.union a b) c =
        GeometryFormat.union a (GeometryFormat.union b c)) ∧
    (∀ f : ℕ, GeometryFormat.union f f = f) ∧
    (∀ v : ℕ, GeometryFormat.union GeometryFormat.NONE v = v ∧
        GeometryFormat.union v GeometryFormat.NONE = v) ∧
    GeometryFormat.hasFlag
      (GeometryFormat.union GeometryFormat.GEOJSON GeometryFormat.KML)
      GeometryFormat.GEOJSON = true ∧
    GeometryFormat.hasFlag
      (GeometryFormat.union GeometryFormat.GEOJSON GeometryFormat.KML)
      GeometryFormat.KML = true ∧
    GeometryFormat.hasFlag
      (GeometryFormat.union GeometryFormat.GEOJSON GeometryFormat.KML)
      GeometryFormat.SVG = false ∧
    GeometryFormat.hasFlag
      (GeometryFormat.union GeometryFormat.GEOJSON GeometryFormat.KML)
      GeometryFormat.TEXT = false := by
  refine ⟨fun a b c => ?_, fun f => ?_, fun v => ⟨?_, ?_⟩,
    by decide, by decide, by decide, by decide⟩
  · exact Nat.lor_assoc a b c
  · refine Nat.eq_of_testBit_eq fun i => ?_
    simp [GeometryFormat.union, Nat.testBit_lor]
  · simp [GeometryFormat.union, GeometryFormat.NONE]
  · simp [GeometryFormat.union, GeometryFormat.NONE]

/-- C8: a `LookupDetails` built with no arguments has `geometry_output =
NONE` and all four booleans `false`, and the constructor accepts every
combination of field values independently, never failing. -/
theorem lookupDetails_defaults :
    (({} : LookupDetails).geometry_output = GeometryFormat.NONE ∧
     ({} : LookupDetails).address_details = false ∧
     ({} : LookupDetails).linked_places = false ∧
     ({} : LookupDetails).parented_places = false ∧
     ({} : LookupDetails).keywords = false) ∧
    (∀ g a l p k, (LookupDetails.mk g a l p k).geometry_output = g ∧
      (LookupDetails.mk g a l p k).address_details = a ∧
      (LookupDetails.mk g a l p k).linked_places = l ∧
      (LookupDetails.mk g a l p k).parented_places = p ∧
      (LookupDetails.mk g a l p k).keywords = k) :=
  ⟨⟨rfl, rfl, rfl, rfl, rfl⟩, fun _ _ _ _ _ => ⟨rfl, rfl, rfl, rfl, rfl⟩⟩

/-- C9: for every point, the latitude accessor returns `y` and the
longitude accessor returns `x`; in particular `Point(x=30.0, y=20.0)` has
latitude `20.0` and longitude `30.0`. -/
theorem point_lat_lon :
    (∀ x y : PyFloat, (Point.mk x y).lat = y ∧ (Point.mk x y).lon = x) ∧
    (Point.mk (.finite 30) (.finite 20)).lat = .finite 20 ∧
    (Point.mk (.finite 30) (.finite 20)).lon = .finite 30 :=
  ⟨fun _ _ => ⟨rfl, rfl⟩, rfl, rfl⟩

/-- C10: `to_geojson` on a NaN coordinate does not fail or reject: it
passes the float's text form `nan` straight into the template, and the
resulting string is not valid JSON. -/
theorem to_geojson_nan_passthrough :
    Point.to_geojson { x := .nan, y := .finite 1 }
      = "\x7b\"type\": \"Point\",\"coordinates\": [nan, 1.0]\x7d" ∧
    isValidJson (Point.to_geojson { x := .nan, y := .finite 1 }) = false :=
  ⟨by decide, by decide⟩
